import Mathlib

/-!
Verification development for the DeepTutor research-run websocket core
(`src/api/routers/research.py`), the notebook session persistence helper
(`_persist_research_session`, same file) and the session store it calls
(`src/api/utils/notebook_manager.py`).

The Python code is shallowly embedded: Python values (the JSON/YAML-shaped
data that flows through the config composer, session store and message
payloads) become the inductive type `PyVal`; Python dict mutation becomes
functional update on association lists preserving insertion order (Python
dict semantics); statements that can raise become `Except String`
computations; the websocket, the LLM credential provider, the pipeline,
the history store and the task registry are collaborators whose outcomes
are supplied by an environment record, exactly as the router treats them.

Numeric timestamps (`time.time()`) are modelled as integers supplied by the
environment; logging calls are modelled as non-raising (they are fire-and
-forget observability calls); the three forwarding loops (log pusher,
progress pusher, heartbeat) share the `safe_send` gate modelled here but
their queue-draining bodies are not part of any claim's mainline trace.
-/

namespace DeepTutor

/-! ## Python value model -/

/-- A Python/JSON value as it flows through the router: strings, ints
(numeric timestamps are modelled as integers), booleans, `None`, lists and
insertion-ordered dicts. -/
inductive PyVal where
  | str (s : String)
  | int (n : Int)
  | bool (b : Bool)
  | pynone
  | list (xs : List PyVal)
  | dict (entries : List (String × PyVal))

/-- Insertion-ordered association list standing for a Python dict. -/
abbrev PyDict := List (String × PyVal)

/-- Python `d.get(k)` as an `Option`: first binding of `k`. -/
def dictGet? (d : PyDict) (k : String) : Option PyVal :=
  match d with
  | [] => none
  | (k', v) :: rest => if k' = k then some v else dictGet? rest k

/-- Python `d.get(k, default)`. -/
def dictGetD (d : PyDict) (k : String) (dflt : PyVal) : PyVal :=
  match dictGet? d k with
  | some v => v
  | none => dflt

/-- Assignment `d[k] = v` on a dict: overwrite in place (keeping position) or append,
which is Python's insertion-order behaviour. -/
def dictSet (d : PyDict) (k : String) (v : PyVal) : PyDict :=
  match d with
  | [] => [(k, v)]
  | (k', v') :: rest => if k' = k then (k, v) :: rest else (k', v') :: dictSet rest k v

/-- Membership `k in d` for a dict. -/
def dictContains (d : PyDict) (k : String) : Bool :=
  (dictGet? d k).isSome

/-- Python `d.update(other)`: assign every binding of `other` into `d` in order. -/
def dictUpdate (d : PyDict) (other : PyDict) : PyDict :=
  other.foldl (fun acc kv => dictSet acc kv.1 kv.2) d

/-- Python truthiness of a value. -/
def pyTruthy : PyVal → Bool
  | .str s => s ≠ ""
  | .int n => n ≠ 0
  | .bool b => b
  | .pynone => false
  | .list xs => ¬ xs.isEmpty
  | .dict d => ¬ d.isEmpty

/-- Python `a or b` on values (returns `a` when truthy, else `b`). -/
def pyOr (a b : PyVal) : PyVal :=
  if pyTruthy a then a else b

/-- Equality test `v == s` against a string literal: Python cross-type
equality with a `str` is `False` unless `v` is that string. -/
def pyEqStr (v : PyVal) (s : String) : Bool :=
  match v with
  | .str s' => s' = s
  | _ => false

/-- Is the value a dict (`isinstance(v, dict)`)? -/
def PyVal.isDict : PyVal → Bool
  | .dict _ => true
  | _ => false

/-! ## Python operations that can raise

Each models one concrete Python operation used by the router; the `Except`
error carries the Python exception class name. -/

/-- Method `v.get(k, default)`: only dicts have `.get`; anything else raises
`AttributeError`. -/
def pyGetMethod (v : PyVal) (k : String) (dflt : PyVal) : Except String PyVal :=
  match v with
  | .dict d => .ok (dictGetD d k dflt)
  | _ => .error "AttributeError"

/-- Subscript `v[k]` with a string key: dict lookup (`KeyError` when absent); any
non-dict raises (`TypeError`). -/
def pyGetIndex (v : PyVal) (k : String) : Except String PyVal :=
  match v with
  | .dict d =>
    match dictGet? d k with
    | some x => .ok x
    | none => .error "KeyError"
  | _ => .error "TypeError"

/-- Assignment `v[k] = x` with a string key: only dicts support item assignment. -/
def pySetItem (v : PyVal) (k : String) (x : PyVal) : Except String PyVal :=
  match v with
  | .dict d => .ok (.dict (dictSet d k x))
  | _ => .error "TypeError"

/-- Does the second list start with the first? -/
def listStartsWith : List Char → List Char → Bool
  | [], _ => true
  | _ :: _, [] => false
  | a :: as, b :: bs => a = b && listStartsWith as bs

/-- Contiguous-sublist test, for Python's substring membership `k in s`. -/
def listHasInfix (needle : List Char) : List Char → Bool
  | [] => needle.isEmpty
  | c :: rest => listStartsWith needle (c :: rest) || listHasInfix needle rest

/-- Membership `k in v` for a string key: dict key test, list membership, substring
test on strings; other values are not containers (`TypeError`). -/
def pyContains (k : String) (v : PyVal) : Except String Bool :=
  match v with
  | .dict d => .ok (dictContains d k)
  | .list xs => .ok (xs.any (fun x => pyEqStr x k))
  | .str s => .ok (listHasInfix k.toList s.toList)
  | _ => .error "TypeError"

/-- Method `v.copy()`: dicts and lists have shallow `.copy`; other values raise
`AttributeError`. -/
def pyCopy (v : PyVal) : Except String PyVal :=
  match v with
  | .dict d => .ok (.dict d)
  | .list xs => .ok (.list xs)
  | _ => .error "AttributeError"

/-- Method `v.items()`: only dicts. -/
def pyItems (v : PyVal) : Except String PyDict :=
  match v with
  | .dict d => .ok d
  | _ => .error "AttributeError"

/-- Method `v.update(other)` where `other` is a dict literal: only dicts. -/
def pyUpdate (v : PyVal) (other : PyDict) : Except String PyVal :=
  match v with
  | .dict d => .ok (.dict (dictUpdate d other))
  | _ => .error "AttributeError"

/-- Nested read-only lookup used to state theorems about composed configs:
`getPath v [k1, k2]` is `v[k1][k2]` when every step is a dict. -/
def getPath (v : PyVal) : List String → Option PyVal
  | [] => some v
  | k :: ks =>
    match v with
    | .dict d =>
      match dictGet? d k with
      | some x => getPath x ks
      | none => none
    | _ => none

/-! ## Output interceptor (`ResearchStdoutInterceptor`, research.py lines 897-916)

`write` forwards the chunk to the saved real stdout, then, when the chunk
is non-whitespace, attempts `loop.call_soon_threadsafe(queue.put_nowait,
message)` guarded by `except (asyncio.QueueFull, RuntimeError,
AttributeError): pass`.  The handoff's outcome is an input of the model;
an exception of a kind outside the guarded tuple propagates out of
`write`, which the second component of the result records. -/

/-- Python `str.isspace` characters relevant to `str.strip()`. -/
def pyIsSpace (c : Char) : Bool :=
  c = ' ' || c = '\t' || c = '\n' || c = '\r' || c = '\x0b' || c = '\x0c'

/-- Python `message.strip()`. -/
def pyStrip (s : String) : String :=
  String.mk (((s.toList.dropWhile pyIsSpace).reverse.dropWhile pyIsSpace).reverse)

/-- Exception classes that can surface from the enqueue handoff; `otherExc`
stands for any class outside the tuple caught at research.py line 911. -/
inductive PyExcKind where
  | queueFull
  | runtimeError
  | attributeError
  | otherExc
  deriving DecidableEq, Repr

/-- Outcome of `loop.call_soon_threadsafe(queue.put_nowait, message)`:
either the chunk is handed to the log queue or an exception is raised. -/
inductive HandoffOutcome where
  | handedOff
  | raises (k : PyExcKind)
  deriving DecidableEq, Repr

/-- Observable state of the interceptor: what reached the real stdout sink
and what reached the log queue. -/
structure InterceptState where
  sink : List String
  queue : List String
  deriving Repr, DecidableEq

/-- Method `ResearchStdoutInterceptor.write` (research.py lines 902-913).  Returns
the new state together with `some k` when an exception of kind `k`
escapes the method. -/
def ResearchStdoutInterceptor.write (s : InterceptState) (message : String)
    (handoff : HandoffOutcome) : InterceptState × Option PyExcKind :=
  let s1 : InterceptState := { s with sink := s.sink ++ [message] }
  if pyStrip message ≠ "" then
    match handoff with
    | .handedOff => ({ s1 with queue := s1.queue ++ [message] }, none)
    | .raises k =>
      if k = .queueFull || k = .runtimeError || k = .attributeError then
        (s1, none)
      else
        (s1, some k)
  else
    (s1, none)

/-! ## Outbound messages, connection state and the safe-send gate
(research.py lines 630-644) -/

/-- Outbound messages the handler's mainline can place on the websocket.
`errorDict` is the `{"error": ...}` payload of line 831 (it has no
`type` field); `cancelled` is in the vocabulary because the spec names it,
but no statement in `websocket_research_run` sends it. -/
inductive OutMsg where
  | taskIdMsg (tid : String)
  | statusStarted (research_id : String)
  | reportPath (path : String)
  | resultMsg (report : String) (research_id : String)
  | errorMsg (content : String)
  | errorDict (content : String)
  | logMsg (content : String)
  | progressMsg
  | pingMsg
  | cancelled
  deriving DecidableEq, Repr

/-- Connection state: the `ws_connected` flag (line 630), the number of
physical send attempts made so far (indexing the environment's send
oracle), and the list of messages that were actually transmitted. -/
structure ConnState where
  alive : Bool
  attempts : Nat
  sent : List OutMsg
  deriving Repr, DecidableEq

/-- Initial connection state: `ws_connected = True`, nothing sent. -/
def initConn : ConnState := { alive := true, attempts := 0, sent := [] }

/-- Helper `safe_send` (research.py lines 634-644): when the flag is down, return
`False` without touching the socket; otherwise attempt the send, and on
failure flip the flag and return `False` instead of raising. -/
def safe_send (sendOk : Nat → Bool) (s : ConnState) (m : OutMsg) : ConnState × Bool :=
  if ¬ s.alive then
    (s, false)
  else if sendOk s.attempts then
    ({ s with attempts := s.attempts + 1, sent := s.sent ++ [m] }, true)
  else
    ({ s with attempts := s.attempts + 1, alive := false }, false)

/-- A bare `websocket.send_json` (lines 665, 673, 831): it does not consult
or modify `ws_connected`; on failure it raises (second component `false`
means the exception propagated to the enclosing handler). -/
def directSend (sendOk : Nat → Bool) (s : ConnState) (m : OutMsg) : ConnState × Bool :=
  if sendOk s.attempts then
    ({ s with attempts := s.attempts + 1, sent := s.sent ++ [m] }, true)
  else
    ({ s with attempts := s.attempts + 1 }, false)

/-! ## Config composition (research.py lines 656-658 and 690-811) -/

/-- Remove duplicates keeping first occurrences, as
`list(dict.fromkeys(xs))` does (line 658). -/
def dedupFirstAux (seen : List String) : List String → List String
  | [] => []
  | x :: xs =>
    if seen.contains x then dedupFirstAux seen xs
    else x :: dedupFirstAux (x :: seen) xs

/-- Lines 656-658: prepend `"Web"` when absent, then deduplicate keeping
first occurrences. -/
def normalize_enabled_tools (ts : List String) : List String :=
  dedupFirstAux [] (if ts.contains "Web" then ts else "Web" :: ts)

/-- Lookup `config[k]` on the top-level config dict (`KeyError` when absent). -/
def topGet (config : PyDict) (k : String) : Except String PyVal :=
  match dictGet? config k with
  | some v => .ok v
  | none => .error "KeyError"

/-- Lines 706-718: seed `config["planning"]` from `research.planning`,
filling only missing keys, with a one-level-deeper fill for nested dicts. -/
def init_planning (config : PyDict) (research_config : PyVal) : Except String PyDict := do
  if ¬ dictContains config "planning" then
    let v ← pyGetMethod research_config "planning" (.dict [])
    let c ← pyCopy v
    pure (dictSet config "planning" c)
  else do
    let default_planning ← pyGetMethod research_config "planning" (.dict [])
    let items ← pyItems default_planning
    items.foldlM (fun cfg kv => do
      let planningVal ← topGet cfg "planning"
      let b ← pyContains kv.1 planningVal
      if ¬ b then do
        let v' ← (if kv.2.isDict then pyCopy kv.2 else pure kv.2)
        let planning' ← pySetItem planningVal kv.1 v'
        pure (dictSet cfg "planning" planning')
      else do
        let cur ← pyGetIndex planningVal kv.1
        if kv.2.isDict && cur.isDict then do
          let subItems ← pyItems kv.2
          let cur' ← subItems.foldlM (fun c kv2 => do
            let b2 ← pyContains kv2.1 c
            if ¬ b2 then pySetItem c kv2.1 kv2.2 else pure c) cur
          let planning' ← pySetItem planningVal kv.1 cur'
          pure (dictSet cfg "planning" planning')
        else
          pure cfg) config

/-- Lines 721-724: make sure `planning.decompose` and `planning.rephrase`
exist, defaulting each to an empty dict. -/
def ensure_decompose_rephrase (config : PyDict) : Except String PyDict := do
  let p1 ← topGet config "planning"
  let b1 ← pyContains "decompose" p1
  let c1 ← (if ¬ b1 then do
      let p' ← pySetItem p1 "decompose" (.dict [])
      pure (dictSet config "planning" p')
    else pure config)
  let p2 ← topGet c1 "planning"
  let b2 ← pyContains "rephrase" p2
  if ¬ b2 then do
    let p' ← pySetItem p2 "rephrase" (.dict [])
    pure (dictSet c1 "planning" p')
  else pure c1

/-- Lines 728-735: seed `config["researching"]` from `research.researching`,
filling only missing keys (flat, no deep merge). -/
def init_researching (config : PyDict) (research_config : PyVal) : Except String PyDict := do
  if ¬ dictContains config "researching" then do
    let v ← pyGetMethod research_config "researching" (.dict [])
    let c ← pyCopy v
    pure (dictSet config "researching" c)
  else do
    let default_researching ← pyGetMethod research_config "researching" (.dict [])
    let items ← pyItems default_researching
    items.foldlM (fun cfg kv => do
      let r ← topGet cfg "researching"
      let b ← pyContains kv.1 r
      if ¬ b then do
        let r' ← pySetItem r kv.1 kv.2
        pure (dictSet cfg "researching" r')
      else pure cfg) config

/-- Lines 739-746: same flat gap-filling for `config["reporting"]`. -/
def init_reporting (config : PyDict) (research_config : PyVal) : Except String PyDict := do
  if ¬ dictContains config "reporting" then do
    let v ← pyGetMethod research_config "reporting" (.dict [])
    let c ← pyCopy v
    pure (dictSet config "reporting" c)
  else do
    let default_reporting ← pyGetMethod research_config "reporting" (.dict [])
    let items ← pyItems default_reporting
    items.foldlM (fun cfg kv => do
      let r ← topGet cfg "reporting"
      let b ← pyContains kv.1 r
      if ¬ b then do
        let r' ← pySetItem r kv.1 kv.2
        pure (dictSet cfg "reporting" r')
      else pure cfg) config

/-- Entry `plan_mode_config["quick"]["planning"]` (research.py line 754). -/
def quick_planning : PyDict :=
  [("decompose", .dict [("initial_subtopics", .int 2), ("mode", .str "manual")])]

/-- Entry `plan_mode_config["quick"]["researching"]` (line 755). -/
def quick_researching : PyDict :=
  [("max_iterations", .int 2), ("iteration_mode", .str "fixed")]

/-- Entry `plan_mode_config["auto"]["planning"]` (line 767). -/
def auto_planning : PyDict :=
  [("decompose", .dict [("mode", .str "auto"), ("auto_max_subtopics", .int 8)])]

/-- Entry `plan_mode_config["auto"]["researching"]` (line 768). -/
def auto_researching : PyDict :=
  [("max_iterations", .int 6), ("iteration_mode", .str "flexible")]

/-- The `"quick"` row of the table (lines 753-757). -/
def quick_entry : PyDict :=
  [("planning", .dict quick_planning),
   ("researching", .dict quick_researching),
   ("reporting", .dict [("report_type", .str "summary")])]

/-- The `"auto"` row of the table (lines 766-769). -/
def auto_entry : PyDict :=
  [("planning", .dict auto_planning),
   ("researching", .dict auto_researching)]

/-- The `plan_mode_config` table (research.py lines 752-770), verbatim. -/
def plan_mode_config : List (String × PyDict) :=
  [("quick", quick_entry),
   ("medium",
     [("planning", .dict [("decompose", .dict
         [("initial_subtopics", .int 5), ("mode", .str "manual")])]),
      ("researching", .dict
         [("max_iterations", .int 4), ("iteration_mode", .str "fixed")])]),
   ("deep",
     [("planning", .dict [("decompose", .dict
         [("initial_subtopics", .int 8), ("mode", .str "manual")])]),
      ("researching", .dict
         [("max_iterations", .int 7), ("iteration_mode", .str "fixed")])]),
   ("auto", auto_entry)]

/-- Lines 771-781: when `plan_mode` names a known preset, `update` the
matching `planning` sub-keys (creating each as `{}` first when missing)
and `update` the `researching` section wholesale. -/
def apply_plan_mode (config : PyDict) (plan_mode : String) : Except String PyDict := do
  match List.lookup plan_mode plan_mode_config with
  | none => pure config
  | some mode_cfg => do
    let c1 ← (match dictGet? mode_cfg "planning" with
      | none => pure config
      | some planPart => do
        let items ← pyItems planPart
        items.foldlM (fun cfg kv => do
          let p ← topGet cfg "planning"
          let b ← pyContains kv.1 p
          let step ← (if ¬ b then do
              let pnew ← pySetItem p kv.1 (.dict [])
              pure (dictSet cfg "planning" pnew, pnew)
            else pure (cfg, p))
          let cur ← pyGetIndex step.2 kv.1
          let valEntries ← pyItems kv.2
          let cur' ← pyUpdate cur valEntries
          let p'' ← pySetItem step.2 kv.1 cur'
          pure (dictSet step.1 "planning" p'')) config)
    match dictGet? mode_cfg "researching" with
    | none => pure c1
    | some resPart => do
      let r ← topGet c1 "researching"
      let entries ← pyItems resPart
      let r' ← pyUpdate r entries
      pure (dictSet c1 "researching" r')

/-- Lines 784-788: legacy preset support — whole top-level sections named
by the preset entry are `update`d when they already exist in the config. -/
def apply_legacy_preset (config : PyDict) (preset : Option String) : Except String PyDict := do
  match preset with
  | none => pure config
  | some p =>
    if p = "" then pure config
    else if ¬ dictContains config "presets" then pure config
    else do
      let presetsVal ← topGet config "presets"
      let b ← pyContains p presetsVal
      if ¬ b then pure config
      else do
        let preset_cfg ← pyGetIndex presetsVal p
        let items ← pyItems preset_cfg
        items.foldlM (fun cfg kv => do
          if dictContains cfg kv.1 && kv.2.isDict then do
            let cur ← topGet cfg kv.1
            let entries ← pyItems kv.2
            let cur' ← pyUpdate cur entries
            pure (dictSet cfg kv.1 cur')
          else pure cfg) config

/-- Lines 795-803: translate the (already normalized) tool list into the
boolean feature flags, with `enable_run_code` always true, and store the
tool list itself. -/
def apply_enabled_tools (config : PyDict) (tools : List String) : Except String PyDict := do
  let r0 ← topGet config "researching"
  let r1 ← pySetItem r0 "enable_rag_naive" (.bool (tools.contains "RAG"))
  let r2 ← pySetItem r1 "enable_rag_hybrid" (.bool (tools.contains "RAG"))
  let r3 ← pySetItem r2 "enable_query_item" (.bool (tools.contains "RAG"))
  let r4 ← pySetItem r3 "enable_paper_search" (.bool (tools.contains "Paper"))
  let r5 ← pySetItem r4 "enable_web_search" (.bool (tools.contains "Web"))
  let r6 ← pySetItem r5 "enable_run_code" (.bool true)
  let r7 ← pySetItem r6 "enabled_tools" (.list (tools.map PyVal.str))
  pure (dictSet config "researching" r7)

/-- Lines 806-807: legacy `research_mode` pass-through when truthy. -/
def apply_research_mode (config : PyDict) (research_mode : Option String) :
    Except String PyDict := do
  match research_mode with
  | none => pure config
  | some rm =>
    if rm = "" then pure config
    else do
      let r ← topGet config "researching"
      let r' ← pySetItem r "research_mode" (.str rm)
      pure (dictSet config "researching" r')

/-- Lines 810-811: `skip_rephrase` disables the internal rephrase step. -/
def apply_skip_rephrase (config : PyDict) (skip : Bool) : Except String PyDict := do
  if skip then do
    let p ← topGet config "planning"
    let rp ← pyGetIndex p "rephrase"
    let rp' ← pySetItem rp "enabled" (.bool false)
    let p' ← pySetItem p "rephrase" rp'
    pure (dictSet config "planning" p')
  else pure config

/-- The whole composition performed by `websocket_research_run` between
receiving the handshake and constructing the pipeline (lines 656-658 and
690-811; the output-directory step at lines 813-823 only writes the
`system` section and is not modelled). -/
def composeConfig (config0 : PyDict) (plan_mode : String) (enabled_tools_raw : List String)
    (preset : Option String) (research_mode : Option String) (skip_rephrase : Bool) :
    Except String PyDict := do
  let enabled_tools := normalize_enabled_tools enabled_tools_raw
  let research_config := dictGetD config0 "research" (.dict [])
  let c1 ← init_planning config0 research_config
  let c2 ← ensure_decompose_rephrase c1
  let c3 ← init_researching c2 research_config
  let c4 ← init_reporting c3 research_config
  let c5 ← apply_plan_mode c4 plan_mode
  let c6 ← apply_legacy_preset c5 preset
  let c7 ← apply_enabled_tools c6 enabled_tools
  let c8 ← apply_research_mode c7 research_mode
  apply_skip_rephrase c8 skip_rephrase

/-! ## Notebook session store and `_persist_research_session`

The store maps a notebook id to the decoded content of its sessions file
(`notebook_manager._load_sessions`, notebook_manager.py lines 123-132,
returns `{"sessions": []}` for a missing or undecodable file, which the
model represents by absence from the store).  `list_sessions`
(lines 152-157) is embedded below.  `upsert_session` (lines 166-229) is
the Notebook Session Store collaborator interface of spec §6; its merge
result is not claim-relevant, so the environment supplies its behaviour as
an opaque state transformer that may raise (its `_save_sessions` performs
file I/O). -/

abbrev NotebookStore := List (String × PyVal)

/-- Stable insertion into a list sorted by the integer key. -/
def insSorted (x : PyDict × Int) : List (PyDict × Int) → List (PyDict × Int)
  | [] => [x]
  | y :: ys => if y.2 ≤ x.2 then y :: insSorted x ys else x :: y :: ys

/-- Stable sort by the integer key, as Python's `list.sort` (stable). -/
def stableSortByKey (xs : List (PyDict × Int)) : List (PyDict × Int) :=
  xs.foldl (fun acc x => insSorted x acc) []

/-- Method `notebook_manager.list_sessions` (notebook_manager.py lines 152-157):
load the sessions file (missing/corrupt file decodes to `{"sessions":
[]}`), take `data.get("sessions", [])`, sort by `s.get("created_at", 0)`
and return.  Sessions must be dicts and `created_at` values integers for
the sort key to be well-typed; other shapes raise (non-integer but
uniformly comparable `created_at` values, which CPython would tolerate,
are conservatively modelled as raising). -/
def list_sessions (store : NotebookStore) (nid : String) :
    Except String (List PyDict) := do
  let data := match List.lookup nid store with
    | some v => v
    | none => .dict [("sessions", .list [])]
  let sessions ← pyGetMethod data "sessions" (.list [])
  match sessions with
  | .list xs => do
    let keyed ← xs.mapM (fun s => do
      match s with
      | .dict d =>
        match dictGetD d "created_at" (.int 0) with
        | .int n => pure ((d : PyDict), n)
        | _ => .error "TypeError"
      | _ => .error "AttributeError")
    pure ((stableSortByKey keyed).map Prod.fst)
  | _ => .error "AttributeError"

/-- Python `str()` conversion used inside the f-string of `source_key`
(research.py line 91); container reprs are approximated by length markers,
which only feed the dedupe key. -/
def pyDisplay : PyVal → String
  | .str s => s
  | .int n => toString n
  | .bool true => "True"
  | .bool false => "False"
  | .pynone => "None"
  | .list xs => "[pylist " ++ toString xs.length ++ "]"
  | .dict d => "[pydict " ++ toString d.length ++ "]"

/-- Closure `source_key` (research.py lines 90-91). -/
def source_key (item : PyVal) : Except String String := do
  let t ← pyGetMethod item "type" .pynone
  let u ← pyGetMethod item "url" .pynone
  let ti ← pyGetMethod item "title" .pynone
  let i ← pyGetMethod item "id" .pynone
  pure (pyDisplay t ++ "-" ++ pyDisplay (pyOr u (pyOr ti (pyOr i (.str "")))))

/-- Closure `add_source` (research.py lines 95-100): skip when the key was seen,
else append the item and remember the key.  The state is the `sources`
list together with `existing_keys`. -/
def add_source (st : List PyVal × List String) (item : PyVal) :
    Except String (List PyVal × List String) := do
  let key ← source_key item
  if st.2.contains key then pure st
  else pure (st.1 ++ [item], st.2 ++ [key])

/-- Coerce the result of a `... or []` expression that is then iterated:
falsy values became `[]` already; a truthy non-list (which CPython would
iterate characterwise or reject) is conservatively modelled as raising. -/
def listOrRaise (v : PyVal) : Except String (List PyVal) :=
  match v with
  | .list xs => .ok xs
  | _ => .error "TypeError"

/-- Truthiness of an optional string (Python `if not x` on a
`str | None`). -/
def truthyOpt : Option String → Bool
  | none => false
  | some s => s ≠ ""

/-- The body of `_persist_research_session` inside its `try`
(research.py lines 79-161).  `upsert` is the collaborator transformer for
`notebook_manager.upsert_session`. -/
def persist_body (upsert : NotebookStore → String → PyDict → Except String NotebookStore)
    (store : NotebookStore) (now : Int) (nid sid : String)
    (report_content topic : String) (metadata : Option PyVal) :
    Except String NotebookStore := do
  let sessions ← list_sessions store nid
  match sessions.find? (fun s => pyEqStr (dictGetD s "session_id" .pynone) sid) with
  | none => pure store
  | some existing => do
    let updated := dictSet (dictSet (dictSet existing
      "research_report" (.str report_content)) "research_state" .pynone) "updated_at" (.int now)
    let sources0 ← listOrRaise (pyOr (dictGetD updated "sources" (.list [])) (.list []))
    let keys0 ← sources0.foldlM (fun acc s => do
      let k ← source_key s
      pure (acc ++ [k])) ([] : List String)
    let st1 ← (if report_content ≠ "" then do
        let title := if topic ≠ "" then "深度研究报告 - " ++ topic else "深度研究报告"
        let filtered ← sources0.foldlM (fun acc s => do
          let t ← pyGetMethod s "type" .pynone
          if pyEqStr t "report" then pure acc else pure (acc ++ [s])) ([] : List PyVal)
        let keys1 ← filtered.foldlM (fun acc s => do
          let k ← source_key s
          pure (acc ++ [k])) ([] : List String)
        add_source (filtered, keys1) (.dict
          [("id", .str ("report-" ++ toString (now * 1000))),
           ("type", .str "report"), ("title", .str title),
           ("selected", .bool true), ("content", .str report_content)])
      else pure (sources0, keys0))
    let st2 ← (match metadata with
      | none => pure st1
      | some m =>
        if ¬ pyTruthy m then pure st1
        else do
          let web ← pyGetMethod m "web_sources" .pynone
          let webList ← listOrRaise (pyOr web (.list []))
          let stW ← webList.enum.foldlM (fun acc (p : Nat × PyVal) => do
            let title ← pyGetMethod p.2 "title" .pynone
            let url ← pyGetMethod p.2 "url" .pynone
            let content ← pyGetMethod p.2 "content" .pynone
            let snippet ← pyGetMethod p.2 "snippet" .pynone
            add_source acc (.dict
              [("id", .str ("research-web-" ++ toString (now * 1000) ++ "-" ++ toString p.1)),
               ("type", .str "web"),
               ("title", pyOr title (pyOr url (.str ("网络来源 " ++ toString (p.1 + 1))))),
               ("url", pyOr url (.str "")),
               ("content", pyOr content (pyOr snippet (.str ""))),
               ("selected", .bool true)])) st1
          let rag ← pyGetMethod m "rag_sources" .pynone
          let ragList ← listOrRaise (pyOr rag (.list []))
          let stR ← ragList.enum.foldlM (fun acc (p : Nat × PyVal) => do
            let title ← pyGetMethod p.2 "title" .pynone
            let src ← pyGetMethod p.2 "source" .pynone
            let srcFile ← pyGetMethod p.2 "source_file" .pynone
            let kbName ← pyGetMethod p.2 "kb_name" .pynone
            let url ← pyGetMethod p.2 "url" .pynone
            let content ← pyGetMethod p.2 "content" .pynone
            let preview ← pyGetMethod p.2 "content_preview" .pynone
            add_source acc (.dict
              [("id", .str ("research-rag-" ++ toString (now * 1000) ++ "-" ++ toString p.1)),
               ("type", .str "kb"),
               ("title", pyOr title (pyOr src (pyOr srcFile (pyOr kbName
                 (.str ("知识库来源 " ++ toString (p.1 + 1))))))),
               ("url", pyOr url (.str "")),
               ("content", pyOr content (pyOr preview (.str ""))),
               ("selected", .bool true)])) stW
          let misc ← pyGetMethod m "sources" .pynone
          let miscList ← listOrRaise (pyOr misc (.list []))
          miscList.enum.foldlM (fun acc (p : Nat × PyVal) => do
            let idv ← pyGetMethod p.2 "id" .pynone
            let tyv ← pyGetMethod p.2 "type" .pynone
            let title ← pyGetMethod p.2 "title" .pynone
            let url ← pyGetMethod p.2 "url" .pynone
            let content ← pyGetMethod p.2 "content" .pynone
            let snippet ← pyGetMethod p.2 "snippet" .pynone
            add_source acc (.dict
              [("id", pyOr idv (.str ("research-src-" ++ toString (now * 1000) ++ "-" ++ toString p.1))),
               ("type", pyOr tyv (.str "web")),
               ("title", pyOr title (pyOr url (.str ("来源 " ++ toString (p.1 + 1))))),
               ("url", pyOr url (.str "")),
               ("content", pyOr content (pyOr snippet (.str ""))),
               ("selected", .bool true)])) stR)
    let updated2 := dictSet updated "sources" (.list st2.1)
    upsert store nid updated2

/-- Function `_persist_research_session` (research.py lines 70-163): early return on
a falsy notebook/session id; everything else sits inside
`try: ... except Exception: logger.warning(...)`, so an exception from the
body leaves the store untouched and never escapes (the logging call is
modelled as non-raising). -/
def persist_research_session
    (upsert : NotebookStore → String → PyDict → Except String NotebookStore)
    (store : NotebookStore) (now : Int)
    (notebook_id session_id : Option String)
    (report_content topic : String) (metadata : Option PyVal) : NotebookStore :=
  if truthyOpt notebook_id && truthyOpt session_id then
    match persist_body upsert store now (notebook_id.getD "") (session_id.getD "")
        report_content topic metadata with
    | .ok store' => store'
    | .error _ => store
  else store

/-! ## Task identity registry

Modelled from the spec: `TaskIDManager` (imported from
`src.api.utils.task_id_manager`) is not among the provided sources; spec
§4.2 describes `generate_task_id` as a deterministic derivation from the
namespace and a hash of the dedupe key that records a fresh registry
entry, and `update_task_status` as the per-task status writer.  The task
(spec §3) starts in status `pending` at handshake time. -/

/-- Task lifecycle status (spec §3). -/
inductive TaskStatus where
  | pending
  | running
  | completed
  | cancelled
  | error
  deriving DecidableEq, Repr

/-- Process-wide registry of task entries in creation order. -/
abbrev Registry := List (String × TaskStatus)

/-- Deterministic string hash standing for Python's `hash(str(topic))`
inside the dedupe key (line 669). -/
def strHash (s : String) : Nat :=
  s.toList.foldl (fun h c => (h * 131 + c.toNat) % 1000000007) 7

/-- Decimal digits with structural fuel (kernel-friendly `str(n)`). -/
def digitsAux : Nat → Nat → List Char
  | 0, _ => []
  | fuel + 1, n =>
    if n = 0 then []
    else digitsAux fuel (n / 10) ++ [Char.ofNat (48 + n % 10)]

/-- Decimal rendering of a natural number. -/
def natToStr (n : Nat) : String :=
  if n = 0 then "0" else String.mk (digitsAux 64 n)

/-- Modelled from the spec: `TaskIDManager.generate_task_id` derives the
task id from the namespace and a hash of the dedupe key. -/
def generate_task_id (ns : String) (dedupe_key : String) : String :=
  ns ++ "_" ++ natToStr (strHash dedupe_key)

/-- Modelled from the spec: registering the freshly issued task id creates
a `pending` entry. -/
def registry_add (reg : Registry) (tid : String) : Registry :=
  reg ++ [(tid, .pending)]

/-- Modelled from the spec: `update_task_status` overwrites the status of
the named entry. -/
def update_task_status (reg : Registry) (tid : String) (st : TaskStatus) : Registry :=
  reg.map (fun e => if e.1 = tid then (e.1, st) else e)

/-! ## The websocket run handler (`websocket_research_run`, lines 620-1009)

Sequential model of the handler's mainline.  The environment supplies the
handshake payload (after the `data.get(..., default)` defaulting of lines
649-662), the outcome of every collaborator call and a per-attempt send
oracle.  The three forwarding loops (log, progress, heartbeat) drain
queues through the same `safe_send` gate and are not part of the mainline
trace; logger construction and logging calls are modelled as non-raising.
Crucially, after the handshake the handler never performs another
`websocket.receive_json()`: lines 925-929 state that the concurrent
listener was removed, so the inbound control messages in the environment
are never consulted. -/

/-- Inbound control messages the client may send after the handshake. -/
inductive InMsg where
  | cancelMsg
  | otherMsg (s : String)
  deriving DecidableEq, Repr

/-- The handshake payload after defaulting (lines 649-662). -/
structure Handshake where
  topic : Option String
  kb_name : String
  notebook_id : Option String
  session_id : Option String
  plan_mode : String
  enabled_tools : List String
  skip_rephrase : Bool
  preset : Option String
  research_mode : Option String

/-- The pipeline collaborator's result dict (spec §6 contract:
`{report, final_report_path, metadata, research_id}`). -/
structure ResultData where
  report : String
  final_report_path : String
  metadata : Option PyVal
  research_id : String

/-- Outcome of `await pipeline.run(topic)` (line 929): a result dict
(possibly falsy, modelled `none`) or a raised exception. -/
inductive PipelineOutcome where
  | ok (res : Option ResultData)
  | raises (msg : String)

/-- Which object sits in the global `sys.stdout` slot. -/
inductive StdoutSlot where
  | original
  | interceptor
  deriving DecidableEq, Repr

/-- Environment of one connection: handshake data plus the outcome of
every collaborator interaction the handler can make. -/
structure Env where
  hs : Handshake
  baseConfig : PyDict
  sendOk : Nat → Bool
  llmOk : Bool
  pipelineResult : PipelineOutcome
  researchId : String
  fileRead : Option String
  historyExc : Option String
  upsert : NotebookStore → String → PyDict → Except String NotebookStore
  store : NotebookStore
  now : Int
  inbound : List InMsg

/-- Observable outcome of one handler run. -/
structure HandlerResult where
  conn : ConnState
  registry : Registry
  ranPipeline : Bool
  closed : Bool
  stdoutSlot : StdoutSlot
  stdoutInstalled : Bool
  store : NotebookStore

/-- The outer `except Exception` block (lines 989-1002): report the error
through the safe-send gate, then try to set the registry status to
`error` — which itself dereferences the local `config` and `task_id`
names, so it silently does nothing when the exception predates their
assignment (the inner `except` at line 1001 swallows the resulting
`NameError`/`UnboundLocalError`). -/
def outer_handler (env : Env) (c : ConnState) (reg : Registry) (tid : Option String)
    (configAssigned ranPipeline installed : Bool) (store : NotebookStore)
    (excMsg : String) : HandlerResult :=
  let c1 := (safe_send env.sendOk c (.errorMsg excMsg)).1
  let reg1 := match tid with
    | some t => if configAssigned then update_task_status reg t .error else reg
    | none => reg
  { conn := c1, registry := reg1, ranPipeline := ranPipeline, closed := false,
    stdoutSlot := .original, stdoutInstalled := installed, store := store }

/-- Lines 932-941: use `result["report"]` when truthy, otherwise read
`final_report_path`, treating absence or a read failure as no content. -/
def effective_report (r : ResultData) (fileRead : Option String) : String :=
  if r.report = "" ∧ r.final_report_path ≠ "" then
    match fileRead with
    | some t => t
    | none => r.report
  else r.report

/-- Handler `websocket_research_run` (research.py lines 620-1009) as a sequential
model.  Inbound control messages (`env.inbound`) are deliberately never
consulted: the source runs `await pipeline.run(topic)` directly with no
concurrent receive (lines 925-929). -/
def websocket_research_run (env : Env) : HandlerResult :=
  let c0 := initConn
  if ¬ truthyOpt env.hs.topic then
    let step := directSend env.sendOk c0 (.errorMsg "Topic is required")
    if step.2 then
      { conn := step.1, registry := [], ranPipeline := false, closed := false,
        stdoutSlot := .original, stdoutInstalled := false, store := env.store }
    else
      outer_handler env step.1 [] none false false false env.store "WebSocketSendError"
  else
    let topic := env.hs.topic.getD ""
    let task_key := "research_" ++ env.hs.kb_name ++ "_" ++ natToStr (strHash topic)
    let tid := generate_task_id "research" task_key
    let reg1 := registry_add [] tid
    let step1 := directSend env.sendOk c0 (.taskIdMsg tid)
    if ¬ step1.2 then
      outer_handler env step1.1 reg1 (some tid) false false false env.store "WebSocketSendError"
    else
      match composeConfig env.baseConfig env.hs.plan_mode env.hs.enabled_tools
          env.hs.preset env.hs.research_mode env.hs.skip_rephrase with
      | .error e =>
        outer_handler env step1.1 reg1 (some tid) true false false env.store e
      | .ok _cfg =>
        if ¬ env.llmOk then
          let step2 := directSend env.sendOk step1.1 (.errorDict "LLM configuration error")
          if step2.2 then
            { conn := step2.1, registry := reg1, ranPipeline := false, closed := true,
              stdoutSlot := .original, stdoutInstalled := false, store := env.store }
          else
            outer_handler env step2.1 reg1 (some tid) true false false env.store
              "WebSocketSendError"
        else
          let c3 := (safe_send env.sendOk step1.1 (.statusStarted env.researchId)).1
          match env.pipelineResult with
          | .raises e =>
            outer_handler env c3 reg1 (some tid) true true true env.store e
          | .ok none =>
            { conn := c3, registry := update_task_status reg1 tid .completed,
              ranPipeline := true, closed := false, stdoutSlot := .original,
              stdoutInstalled := true, store := env.store }
          | .ok (some r) =>
            let report_content := effective_report r env.fileRead
            let c4 := (safe_send env.sendOk c3 (.reportPath r.final_report_path)).1
            match env.historyExc with
            | some e =>
              outer_handler env c4 reg1 (some tid) true true true env.store e
            | none =>
              let c5 := (safe_send env.sendOk c4 (.resultMsg report_content r.research_id)).1
              let store' := persist_research_session env.upsert env.store env.now
                env.hs.notebook_id env.hs.session_id report_content topic r.metadata
              { conn := c5, registry := update_task_status reg1 tid .completed,
                ranPipeline := true, closed := false, stdoutSlot := .original,
                stdoutInstalled := true, store := store' }

/-! ## Sample environments for concrete evaluations -/

/-- A trivial store collaborator that accepts every upsert unchanged. -/
def sampleUpsert : NotebookStore → String → PyDict → Except String NotebookStore :=
  fun st _ _ => .ok st

/-- A handshake with the given topic and all defaults of lines 649-662. -/
def sampleHandshake (topic : Option String) : Handshake :=
  { topic := topic, kb_name := "ai_textbook", notebook_id := none, session_id := none,
    plan_mode := "medium", enabled_tools := ["RAG"], skip_rephrase := false,
    preset := none, research_mode := none }

/-- A run in which every collaborator succeeds, the pipeline returns a
result, and the client sends a `cancel` control message while the pipeline
is running. -/
def envCancel : Env :=
  { hs := sampleHandshake (some "t"), baseConfig := [], sendOk := fun _ => true,
    llmOk := true,
    pipelineResult := .ok (some
      { report := "report text", final_report_path := "reports/r1.md",
        metadata := none, research_id := "rid-1" }),
    researchId := "rid-1", fileRead := none, historyExc := none,
    upsert := sampleUpsert, store := [], now := 0, inbound := [.cancelMsg] }

/-- Same run but the LLM credential provider raises its configuration
error. -/
def envLlmFail : Env :=
  { envCancel with llmOk := false, inbound := [] }

/-- Same run but `history_manager.add_entry` raises. -/
def envHistFail : Env :=
  { envCancel with historyExc := some "disk full", inbound := [] }

/-- Same run but the handshake carries no topic. -/
def envNoTopic : Env :=
  { envCancel with hs := sampleHandshake none, inbound := [] }

/-- The task id issued for topic `"t"` against the default corpus. -/
def sampleTid : String :=
  generate_task_id "research" ("research_" ++ "ai_textbook" ++ "_" ++ natToStr (strHash "t"))

/-- A base config whose legacy presets table carries a `researching`
override, used to probe the legacy-preset stage (lines 784-788). -/
def preset_base_config : PyDict :=
  [("presets", .dict [("legacy", .dict
    [("researching", .dict [("max_iterations", .int 5)])])])]

/-! ## Helper lemmas -/

theorem dictGet?_dictSet_self (d : PyDict) (k : String) (v : PyVal) :
    dictGet? (dictSet d k v) k = some v := by
  induction d with
  | nil => simp [dictSet, dictGet?]
  | cons hd tl ih =>
    obtain ⟨k', v'⟩ := hd
    by_cases h : k' = k <;> simp [dictSet, dictGet?, h, ih]

theorem dictGet?_dictSet_ne (d : PyDict) (k k' : String) (v : PyVal) (h : k' ≠ k) :
    dictGet? (dictSet d k v) k' = dictGet? d k' := by
  have hne : ¬ k = k' := fun h' => h h'.symm
  induction d with
  | nil => simp [dictSet, dictGet?, hne]
  | cons hd tl ih =>
    obtain ⟨k0, v0⟩ := hd
    by_cases h0 : k0 = k
    · subst h0
      simp [dictSet, dictGet?, hne]
    · simp [dictSet, dictGet?, h0, ih]

theorem exceptBind_ok {α β : Type} {x : Except String α} {f : α → Except String β} {b : β}
    (h : (x >>= f) = .ok b) : ∃ a, x = .ok a ∧ f a = .ok b := by
  cases x with
  | error e => simp [Bind.bind, Except.bind] at h
  | ok a => exact ⟨a, rfl, by simpa [Bind.bind, Except.bind] using h⟩

theorem safe_send_sent_eq (sendOk : Nat → Bool) (s : ConnState) (m : OutMsg) :
    (safe_send sendOk s m).1.sent
      = s.sent ++ (if s.alive ∧ sendOk s.attempts then [m] else []) := by
  unfold safe_send
  split_ifs with h1 h2 <;> simp_all

theorem directSend_sent_eq (sendOk : Nat → Bool) (s : ConnState) (m : OutMsg) :
    (directSend sendOk s m).1.sent
      = s.sent ++ (if sendOk s.attempts then [m] else []) := by
  unfold directSend
  split_ifs <;> simp_all

theorem safe_send_alive_true {sendOk : Nat → Bool} {s : ConnState} {m : OutMsg}
    (h : (safe_send sendOk s m).1.alive = true) :
    s.alive = true ∧ sendOk s.attempts = true ∧
      (safe_send sendOk s m).1
        = { s with attempts := s.attempts + 1, sent := s.sent ++ [m] } := by
  by_cases h1 : s.alive = true
  · by_cases h2 : sendOk s.attempts = true
    · exact ⟨h1, h2, by simp [safe_send, h1, h2]⟩
    · exfalso
      have hfalse : (safe_send sendOk s m).1.alive = false := by
        simp [safe_send, h1, h2]
      simp [hfalse] at h
  · exfalso
    have heq : (safe_send sendOk s m).1 = (s, false).1 := by
      simp [safe_send, h1]
    rw [heq] at h
    exact h1 h

theorem mem_ite_list {α : Type} {x m : α} {c : Prop} [Decidable c] :
    (x ∈ (if c then [m] else ([] : List α))) ↔ (c ∧ x = m) := by
  split_ifs with h <;> simp_all

/-! ## Claim theorems -/

/-- C6: the connection-alive flag starts true; when it is false,
`safe_send` performs no I/O (state unchanged), returns failure and raises
nothing; no primitive ever transitions the flag back to true (`safe_send`
only lowers it, and the bare send primitive never touches it). -/
theorem C6_alive_flag_single_writer (sendOk : Nat → Bool) (s : ConnState) (m : OutMsg)
    (h : s.alive = false) :
    safe_send sendOk s m = (s, false) ∧
    initConn.alive = true ∧
    (∀ sendOk' t n, (safe_send sendOk' t n).1.alive = true → t.alive = true) ∧
    (∀ sendOk' t n, (directSend sendOk' t n).1.alive = t.alive) := by
  refine ⟨?_, rfl, ?_, ?_⟩
  · simp [safe_send, h]
  · intro sendOk' t n ht
    exact (safe_send_alive_true ht).1
  · intro sendOk' t n
    unfold directSend
    split_ifs <;> rfl

theorem C6_alive_flag_single_writer_witness :
    safe_send (fun _ => true) { alive := false, attempts := 3, sent := [] } OutMsg.pingMsg
      = ({ alive := false, attempts := 3, sent := [] }, false) :=
  (C6_alive_flag_single_writer (fun _ => true)
    { alive := false, attempts := 3, sent := [] } OutMsg.pingMsg rfl).1

/-- C5 counterexample: the claim says a handoff failure of any kind is
dropped silently and `write` never raises, but the guard at research.py
line 911 only catches `QueueFull`, `RuntimeError` and `AttributeError`; a
handoff failing with any other exception class escapes `write`. -/
theorem C5_counterexample_other_exception_escapes :
    ResearchStdoutInterceptor.write { sink := [], queue := [] } "x"
        (.raises .otherExc)
      = ({ sink := ["x"], queue := [] }, some .otherExc) := by
  decide

/-- C5 (amended): `write` always forwards the chunk to the real sink
first; the chunk reaches the log queue exactly when it is non-whitespace
and the handoff succeeds; a handoff failure is swallowed exactly when its
class is `QueueFull`, `RuntimeError` or `AttributeError` (any other class
escapes `write`); and the interceptor is restored to the original stdout
slot on every handler exit, including exceptional ones. -/
theorem C5_write_forwards_then_enqueues (s : InterceptState) (m : String)
    (h : HandoffOutcome) :
    ((ResearchStdoutInterceptor.write s m h).1.sink = s.sink ++ [m]) ∧
    ((ResearchStdoutInterceptor.write s m h).1.queue =
      if pyStrip m ≠ "" ∧ h = .handedOff then s.queue ++ [m] else s.queue) ∧
    ((ResearchStdoutInterceptor.write s m h).2 =
      if pyStrip m ≠ "" ∧ h = .raises .otherExc then some PyExcKind.otherExc else none) ∧
    (∀ env, (websocket_research_run env).stdoutSlot = StdoutSlot.original) := by
  refine ⟨?_, ?_, ?_, ?_⟩
  · unfold ResearchStdoutInterceptor.write
    by_cases hm : pyStrip m = ""
    · simp [hm]
    · cases h with
      | handedOff => simp [hm]
      | raises k => cases k <;> simp [hm]
  · unfold ResearchStdoutInterceptor.write
    by_cases hm : pyStrip m = ""
    · simp [hm]
    · cases h with
      | handedOff => simp [hm]
      | raises k => cases k <;> simp [hm]
  · unfold ResearchStdoutInterceptor.write
    by_cases hm : pyStrip m = ""
    · simp [hm]
    · cases h with
      | handedOff => simp [hm]
      | raises k => cases k <;> simp [hm]
  · intro env
    dsimp only [websocket_research_run, outer_handler]
    repeat' split
    all_goals rfl

/-- C10: `_persist_research_session` is a no-op on the notebook store when
the notebook or session id is falsy, or when no session of that notebook
has the given `session_id`; and every exception of its body is caught, so
the function always returns (leaving the store untouched on error). -/
theorem C10_persist_frame_and_total
    (upsert : NotebookStore → String → PyDict → Except String NotebookStore)
    (store : NotebookStore) (now : Int) (notebook_id session_id : Option String)
    (rep topic : String) (md : Option PyVal) :
    ((truthyOpt notebook_id && truthyOpt session_id) = false →
      persist_research_session upsert store now notebook_id session_id rep topic md
        = store) ∧
    (∀ ss, list_sessions store (notebook_id.getD "") = .ok ss →
      (∀ s ∈ ss, pyEqStr (dictGetD s "session_id" .pynone) (session_id.getD "") = false) →
      persist_research_session upsert store now notebook_id session_id rep topic md
        = store) ∧
    (∀ e, persist_body upsert store now (notebook_id.getD "") (session_id.getD "")
        rep topic md = .error e →
      persist_research_session upsert store now notebook_id session_id rep topic md
        = store) := by
  refine ⟨?_, ?_, ?_⟩
  · intro hg
    simp [persist_research_session, hg]
  · intro ss hls hall
    unfold persist_research_session
    by_cases hg : (truthyOpt notebook_id && truthyOpt session_id) = true
    · have hfind : ss.find?
          (fun s => pyEqStr (dictGetD s "session_id" .pynone) (session_id.getD ""))
          = none := by
        apply List.find?_eq_none.mpr
        intro x hx
        simp [hall x hx]
      have hbody : persist_body upsert store now (notebook_id.getD "")
          (session_id.getD "") rep topic md = .ok store := by
        unfold persist_body
        rw [hls]
        simp [Bind.bind, Except.bind, Pure.pure, Except.pure, hfind]
      rw [if_pos hg, hbody]
    · rw [if_neg hg]
  · intro e he
    unfold persist_research_session
    by_cases hg : (truthyOpt notebook_id && truthyOpt session_id) = true
    · rw [if_pos hg, he]
    · rw [if_neg hg]

theorem C10_persist_frame_and_total_witness :
    persist_research_session sampleUpsert [] 0 none (some "s1") "r" "t" none = [] :=
  (C10_persist_frame_and_total sampleUpsert [] 0 none (some "s1") "r" "t" none).1 rfl

/-- C4: when the handshake topic is empty or missing, no registry entry is
created, no `task_id` message is sent, and every message that goes out on
the connection is of type `error`. -/
theorem C4_missing_topic (env : Env) (h : truthyOpt env.hs.topic = false) :
    (websocket_research_run env).registry = [] ∧
    (∀ tid, OutMsg.taskIdMsg tid ∉ (websocket_research_run env).conn.sent) ∧
    (∀ m ∈ (websocket_research_run env).conn.sent, ∃ c, m = OutMsg.errorMsg c) := by
  have h' : ¬ (truthyOpt env.hs.topic = true) := by simp [h]
  unfold websocket_research_run
  rw [if_pos h']
  cases hb : env.sendOk 0 with
  | true => simp [directSend, initConn, hb]
  | false =>
    cases hb1 : env.sendOk 1 with
    | true => simp [directSend, initConn, hb, outer_handler, safe_send, hb1]
    | false => simp [directSend, initConn, hb, outer_handler, safe_send, hb1]

theorem C4_missing_topic_witness :
    (websocket_research_run envNoTopic).registry = [] :=
  (C4_missing_topic envNoTopic rfl).1

/-- C1 counterexample: with the pipeline still running, the client's
`{type:"cancel"}` sits in the inbound queue, yet the handler emits zero
`cancelled` messages (the claim demands exactly one), the task's terminal
registry status is `completed` (the claim says it never is), and a
`result` message is emitted (the claim says it never is): lines 925-929
removed the concurrent listener, so inbound control messages are never
read during a run. -/
theorem C1_counterexample_cancel_ignored :
    envCancel.inbound = [InMsg.cancelMsg] ∧
    (websocket_research_run envCancel).conn.sent.count OutMsg.cancelled = 0 ∧
    (websocket_research_run envCancel).registry = [(sampleTid, TaskStatus.completed)] ∧
    OutMsg.resultMsg "report text" "rid-1" ∈ (websocket_research_run envCancel).conn.sent := by
  decide

/-- C1 (amended): the handler never reads inbound control messages after
the handshake — its entire observable outcome is independent of them, so a
mid-run `cancel` has no effect; no `cancelled` message is ever sent; and a
run whose pipeline returns normally (with the history store succeeding)
ends with terminal status `completed`. -/
theorem C1_run_ignores_inbound_cancel (env : Env) (i : List InMsg)
    (hhist : env.historyExc = none) :
    websocket_research_run { env with inbound := i } = websocket_research_run env ∧
    OutMsg.cancelled ∉ (websocket_research_run env).conn.sent ∧
    (∀ res out, env.pipelineResult = .ok res →
      truthyOpt env.hs.topic = true → env.llmOk = true → env.sendOk 0 = true →
      composeConfig env.baseConfig env.hs.plan_mode env.hs.enabled_tools
          env.hs.preset env.hs.research_mode env.hs.skip_rephrase = .ok out →
      (websocket_research_run env).registry
        = [(generate_task_id "research" ("research_" ++ env.hs.kb_name ++ "_"
            ++ natToStr (strHash (env.hs.topic.getD ""))), TaskStatus.completed)]) := by
  obtain ⟨hs, bc, so, llm, pr, rid, fr, he, up, st, now, inb⟩ := env
  refine ⟨rfl, ?_, ?_⟩
  · dsimp only [websocket_research_run, outer_handler]
    repeat' split
    all_goals
      simp [safe_send_sent_eq, directSend_sent_eq, mem_ite_list, initConn]
  · intro res out hres htopic hllm hsend hcfg
    dsimp only at hres htopic hllm hsend hcfg hhist ⊢
    subst hres
    subst hhist
    unfold websocket_research_run
    rw [if_neg (by simp [htopic])]
    cases res with
    | none =>
      simp [directSend, initConn, hsend, hcfg, hllm, update_task_status,
        registry_add, generate_task_id]
    | some r =>
      simp [directSend, initConn, hsend, hcfg, hllm, update_task_status,
        registry_add, generate_task_id]

theorem C1_run_ignores_inbound_cancel_witness :
    (websocket_research_run envCancel).registry = [(sampleTid, TaskStatus.completed)] :=
  (C1_run_ignores_inbound_cancel envCancel [] rfl).2.2
    (some { report := "report text", final_report_path := "reports/r1.md",
            metadata := none, research_id := "rid-1" })
    ((composeConfig [] "medium" ["RAG"] none none false).toOption.getD [])
    rfl rfl rfl rfl rfl

/-- C2 counterexample: when the LLM credential provider raises its
configuration error, the connection has already carried a `task_id`
message and the registry already holds the task's entry — the credential
check (line 827) runs after task-id issuance (lines 670-673), so the
handshake is not aborted "before any task id is issued" as claimed. -/
theorem C2_counterexample_task_id_before_credentials :
    (websocket_research_run envLlmFail).conn.sent
      = [OutMsg.taskIdMsg sampleTid, OutMsg.errorDict "LLM configuration error"] ∧
    (websocket_research_run envLlmFail).registry = [(sampleTid, TaskStatus.pending)] := by
  decide

/-- C2 (amended): a credential/configuration failure still aborts the run
before the pipeline starts — no `status`, no `result`, and with a healthy
socket the connection is closed right after the error report — but it
happens after the task id is issued: a `task_id` message is already out
and a registry entry already exists. -/
theorem C2_credential_failure_after_task_id (env : Env) (out : PyDict)
    (htopic : truthyOpt env.hs.topic = true)
    (hcfg : composeConfig env.baseConfig env.hs.plan_mode env.hs.enabled_tools
      env.hs.preset env.hs.research_mode env.hs.skip_rephrase = .ok out)
    (hllm : env.llmOk = false) :
    (websocket_research_run env).ranPipeline = false ∧
    (∀ rid, OutMsg.statusStarted rid ∉ (websocket_research_run env).conn.sent) ∧
    (∀ rep rid, OutMsg.resultMsg rep rid ∉ (websocket_research_run env).conn.sent) ∧
    (∃ tid st, (websocket_research_run env).registry = [(tid, st)]) ∧
    (env.sendOk = (fun _ => true) →
      ∃ tid, (websocket_research_run env).conn.sent
          = [OutMsg.taskIdMsg tid, OutMsg.errorDict "LLM configuration error"] ∧
        (websocket_research_run env).closed = true ∧
        (websocket_research_run env).registry = [(tid, TaskStatus.pending)]) := by
  unfold websocket_research_run
  rw [if_neg (by simp [htopic])]
  cases h0 : env.sendOk 0 with
  | false =>
    simp only [directSend, initConn, h0, outer_handler]
    refine ⟨rfl, ?_, ?_, ⟨_, _, rfl⟩, ?_⟩
    · intro rid
      simp [safe_send_sent_eq, mem_ite_list]
    · intro rep rid
      simp [safe_send_sent_eq, mem_ite_list]
    · intro hfun
      rw [hfun] at h0
      simp at h0
  | true =>
    simp only [directSend, initConn, h0, if_true, hcfg, hllm]
    cases h1 : env.sendOk 1 with
    | false =>
      simp only [directSend, h1, outer_handler]
      refine ⟨rfl, ?_, ?_, ⟨_, _, rfl⟩, ?_⟩
      · intro rid
        simp [safe_send_sent_eq, mem_ite_list]
      · intro rep rid
        simp [safe_send_sent_eq, mem_ite_list]
      · intro hfun
        rw [hfun] at h1
        simp at h1
    | true =>
      simp only [directSend, h1]
      refine ⟨rfl, ?_, ?_, ⟨_, _, rfl⟩, ?_⟩
      · intro rid
        simp
      · intro rep rid
        simp
      · intro hfun
        exact ⟨_, rfl, rfl, rfl⟩

theorem C2_credential_failure_after_task_id_witness :
    (websocket_research_run envLlmFail).ranPipeline = false :=
  (C2_credential_failure_after_task_id envLlmFail
    ((composeConfig [] "medium" ["RAG"] none none false).toOption.getD [])
    rfl rfl rfl).1

/-- C3 counterexample: on a run whose pipeline succeeded, a raising
`history_manager.add_entry` (line 948, not wrapped in any local
`try`/`except`) aborts the completion block: the terminal registry status
becomes `error` instead of `completed`, the `result` message is never
sent, and the exception surfaces as an `error` message on the
connection — refuting the claim that persistence-collaborator exceptions
are caught locally and change nothing. -/
theorem C3_counterexample_history_exception_escapes :
    (websocket_research_run envHistFail).registry = [(sampleTid, TaskStatus.error)] ∧
    (websocket_research_run envHistFail).conn.sent
      = [OutMsg.taskIdMsg sampleTid, OutMsg.statusStarted "rid-1",
         OutMsg.reportPath "reports/r1.md", OutMsg.errorMsg "disk full"] := by
  decide

/-- C3 (amended): the notebook session sync can never disturb a run — the
connection trace and the registry are independent of the notebook store
and of the `upsert_session` collaborator's behaviour, raising included
(`_persist_research_session` catches everything) — but an exception from
the history store's `add_entry` propagates to the outer handler: the task
ends in status `error`, no `result` message is sent, and the exception is
reported as an `error` message. -/
theorem C3_notebook_sync_isolated_history_not (env : Env) :
    (∀ st up,
      (websocket_research_run { env with store := st, upsert := up }).conn
          = (websocket_research_run env).conn ∧
      (websocket_research_run { env with store := st, upsert := up }).registry
          = (websocket_research_run env).registry) ∧
    (∀ e r out, env.historyExc = some e → env.pipelineResult = .ok (some r) →
      truthyOpt env.hs.topic = true → env.llmOk = true → env.sendOk 0 = true →
      composeConfig env.baseConfig env.hs.plan_mode env.hs.enabled_tools
          env.hs.preset env.hs.research_mode env.hs.skip_rephrase = .ok out →
      ((websocket_research_run env).registry
          = [(generate_task_id "research" ("research_" ++ env.hs.kb_name ++ "_"
              ++ natToStr (strHash (env.hs.topic.getD ""))), TaskStatus.error)] ∧
       (∀ rep rid2, OutMsg.resultMsg rep rid2 ∉ (websocket_research_run env).conn.sent) ∧
       (env.sendOk = (fun _ => true) →
         OutMsg.errorMsg e ∈ (websocket_research_run env).conn.sent))) := by
  obtain ⟨hs, bc, so, llm, pr, rid, fr, he, up0, st0, now, inb⟩ := env
  constructor
  · intro st up
    constructor
    · dsimp only [websocket_research_run, outer_handler]
      repeat' split
      all_goals rfl
    · dsimp only [websocket_research_run, outer_handler]
      repeat' split
      all_goals rfl
  · intro e r out hhist hres htopic hllm hsend hcfg
    dsimp only at hhist hres htopic hllm hsend hcfg ⊢
    subst hhist
    subst hres
    unfold websocket_research_run
    rw [if_neg (by simp [htopic])]
    refine ⟨?_, ?_, ?_⟩
    · simp [directSend, initConn, hsend, hcfg, hllm, outer_handler,
        update_task_status, registry_add, generate_task_id]
    · intro rep rid2
      simp [directSend, initConn, hsend, hcfg, hllm, outer_handler,
        safe_send_sent_eq, mem_ite_list]
    · intro hfun
      subst hfun
      simp [directSend, initConn, hcfg, hllm, outer_handler, safe_send, initConn]

theorem C3_notebook_sync_isolated_history_not_witness :
    (websocket_research_run envHistFail).registry = [(sampleTid, TaskStatus.error)] :=
  ((C3_notebook_sync_isolated_history_not envHistFail).2 "disk full"
    { report := "report text", final_report_path := "reports/r1.md",
      metadata := none, research_id := "rid-1" }
    ((composeConfig [] "medium" ["RAG"] none none false).toOption.getD [])
    rfl rfl rfl rfl rfl rfl).1

/-- Helper for C9: in the two-send completion sequence, when the `result`
message made it onto the wire, the `report_path` send just before it must
also have succeeded (the gate would otherwise be down), and it sits
strictly earlier in the trace. -/
theorem completion_pair_ordering {so : Nat → Bool} {s3 : ConnState}
    {path repc ridc rep rid2 : String}
    (hno : OutMsg.resultMsg rep rid2 ∉ s3.sent)
    (h : OutMsg.resultMsg rep rid2 ∈
      (safe_send so (safe_send so s3 (OutMsg.reportPath path)).1
        (OutMsg.resultMsg repc ridc)).1.sent) :
    ∃ pre p post,
      (safe_send so (safe_send so s3 (OutMsg.reportPath path)).1
          (OutMsg.resultMsg repc ridc)).1.sent
        = pre ++ OutMsg.reportPath p :: post ∧
      OutMsg.resultMsg rep rid2 ∈ post := by
  rw [safe_send_sent_eq] at h
  rcases List.mem_append.mp h with hin | hin
  · rw [safe_send_sent_eq] at hin
    rcases List.mem_append.mp hin with hin2 | hin2
    · exact absurd hin2 hno
    · rcases mem_ite_list.mp hin2 with ⟨_, hbad⟩
      exact OutMsg.noConfusion hbad
  · rcases mem_ite_list.mp hin with ⟨⟨halive, hok⟩, heq⟩
    obtain ⟨h3alive, h3ok, h4eq⟩ := safe_send_alive_true halive
    refine ⟨s3.sent, path, [OutMsg.resultMsg repc ridc], ?_, ?_⟩
    · rw [safe_send_sent_eq, if_pos ⟨halive, hok⟩, h4eq]
      simp
    · rw [heq]
      simp

/-- C9: whenever a run emits a `result` message, a `report_path` message
was emitted strictly before it on the same connection — the two sends are
sequenced back to back at lines 945 and 955, and the safe-send gate makes
a delivered `result` imply a delivered `report_path`. -/
theorem C9_report_path_precedes_result (env : Env) (rep rid2 : String)
    (h : OutMsg.resultMsg rep rid2 ∈ (websocket_research_run env).conn.sent) :
    ∃ pre p post, (websocket_research_run env).conn.sent
        = pre ++ OutMsg.reportPath p :: post ∧
      OutMsg.resultMsg rep rid2 ∈ post := by
  revert h
  dsimp only [websocket_research_run, outer_handler]
  repeat' split
  all_goals intro h
  all_goals first
    | (refine completion_pair_ordering ?_ h
       simp [safe_send_sent_eq, directSend_sent_eq, mem_ite_list, initConn])
    | simp [safe_send_sent_eq, directSend_sent_eq, mem_ite_list, initConn] at h

theorem C9_report_path_precedes_result_witness :
    ∃ pre p post, (websocket_research_run envCancel).conn.sent
        = pre ++ OutMsg.reportPath p :: post ∧
      OutMsg.resultMsg "report text" "rid-1" ∈ post :=
  C9_report_path_precedes_result envCancel "report text" "rid-1" (by decide)

/-! ## Inversion lemmas for the composition stages -/

theorem getPath_cons_congr {a b : PyDict} {k : String}
    (h : dictGet? a k = dictGet? b k) (ks : List String) :
    getPath (.dict a) (k :: ks) = getPath (.dict b) (k :: ks) := by
  simp [getPath, h]

theorem getPath_append (v : PyVal) (ks ks' : List String) :
    getPath v (ks ++ ks') = (getPath v ks).bind (fun w => getPath w ks') := by
  induction ks generalizing v with
  | nil => simp [getPath]
  | cons k ks ih =>
    cases v <;> simp [getPath]
    case dict d =>
      cases dictGet? d k <;> simp [ih]

theorem purePyOk {α : Type} {a b : α} (h : (pure a : Except String α) = .ok b) :
    a = b := by
  simpa [pure, Except.pure] using h

theorem topGet_ok {c : PyDict} {k : String} {v : PyVal} (h : topGet c k = .ok v) :
    dictGet? c k = some v := by
  unfold topGet at h
  cases hd : dictGet? c k <;> rw [hd] at h <;> simp at h
  rw [h]

theorem pySetItem_ok {v x w : PyVal} {k : String} (h : pySetItem v k x = .ok w) :
    ∃ d, v = .dict d ∧ w = .dict (dictSet d k x) := by
  cases v <;> simp [pySetItem] at h
  case dict d => exact ⟨d, rfl, h.symm⟩

theorem pyGetIndex_ok {v x : PyVal} {k : String} (h : pyGetIndex v k = .ok x) :
    ∃ d, v = .dict d ∧ dictGet? d k = some x := by
  cases v <;> simp [pyGetIndex] at h
  case dict d =>
    cases hd : dictGet? d k <;> rw [hd] at h <;> simp at h
    exact ⟨d, rfl, by rw [hd, h]⟩

theorem pyUpdate_ok {v w : PyVal} {other : PyDict} (h : pyUpdate v other = .ok w) :
    ∃ d, v = .dict d ∧ w = .dict (dictUpdate d other) := by
  cases v <;> simp [pyUpdate] at h
  case dict d => exact ⟨d, rfl, h.symm⟩

theorem apply_legacy_preset_none (c : PyDict) : apply_legacy_preset c none = .ok c := rfl

/-- A successful tools stage rewrites exactly the seven feature keys of
the `researching` section and leaves everything else where it was. -/
theorem apply_enabled_tools_ok {c : PyDict} {ts : List String} {out : PyDict}
    (h : apply_enabled_tools c ts = .ok out) :
    ∃ d0, dictGet? c "researching" = some (.dict d0) ∧
      out = dictSet c "researching" (.dict
        (dictSet (dictSet (dictSet (dictSet (dictSet (dictSet (dictSet d0
          "enable_rag_naive" (.bool (ts.contains "RAG")))
          "enable_rag_hybrid" (.bool (ts.contains "RAG")))
          "enable_query_item" (.bool (ts.contains "RAG")))
          "enable_paper_search" (.bool (ts.contains "Paper")))
          "enable_web_search" (.bool (ts.contains "Web")))
          "enable_run_code" (.bool true))
          "enabled_tools" (.list (ts.map PyVal.str)))) := by
  unfold apply_enabled_tools at h
  obtain ⟨r0, h0, h⟩ := exceptBind_ok h
  obtain ⟨r1, h1, h⟩ := exceptBind_ok h
  obtain ⟨r2, h2, h⟩ := exceptBind_ok h
  obtain ⟨r3, h3, h⟩ := exceptBind_ok h
  obtain ⟨r4, h4, h⟩ := exceptBind_ok h
  obtain ⟨r5, h5, h⟩ := exceptBind_ok h
  obtain ⟨r6, h6, h⟩ := exceptBind_ok h
  obtain ⟨r7, h7, h⟩ := exceptBind_ok h
  obtain ⟨d0, hv0, hr1⟩ := pySetItem_ok h1
  subst hv0
  subst hr1
  simp only [pySetItem, Except.ok.injEq] at h2
  subst h2
  simp only [pySetItem, Except.ok.injEq] at h3
  subst h3
  simp only [pySetItem, Except.ok.injEq] at h4
  subst h4
  simp only [pySetItem, Except.ok.injEq] at h5
  subst h5
  simp only [pySetItem, Except.ok.injEq] at h6
  subst h6
  simp only [pySetItem, Except.ok.injEq] at h7
  subst h7
  have hout := purePyOk h
  subst hout
  exact ⟨d0, topGet_ok h0, rfl⟩

/-- The legacy `research_mode` stage touches only
`researching.research_mode`. -/
theorem apply_research_mode_frame {c out : PyDict} {rm : Option String}
    (h : apply_research_mode c rm = .ok out) :
    (∀ k, k ≠ "research_mode" →
      getPath (.dict out) ["researching", k] = getPath (.dict c) ["researching", k]) ∧
    (∀ k, k ≠ "researching" → dictGet? out k = dictGet? c k) := by
  cases rm with
  | none =>
    have hco : c = out := purePyOk h
    subst hco
    exact ⟨fun _ _ => rfl, fun _ _ => rfl⟩
  | some s =>
    unfold apply_research_mode at h
    dsimp only at h
    by_cases hs : s = ""
    · rw [if_pos hs] at h
      have hco : c = out := purePyOk h
      subst hco
      exact ⟨fun _ _ => rfl, fun _ _ => rfl⟩
    · rw [if_neg hs] at h
      obtain ⟨r, h0, h⟩ := exceptBind_ok h
      obtain ⟨r', h1, h⟩ := exceptBind_ok h
      obtain ⟨d, hv, hr'⟩ := pySetItem_ok h1
      subst hv
      subst hr'
      have hout := purePyOk h
      subst hout
      have hc := topGet_ok h0
      constructor
      · intro k hk
        rw [getPath_cons_congr (b := dictSet c "researching"
          (.dict (dictSet d "research_mode" (.str s)))) rfl]
        simp [getPath, dictGet?_dictSet_self, hc, dictGet?_dictSet_ne _ _ _ _ hk]
      · intro k hk
        exact dictGet?_dictSet_ne _ _ _ _ hk

/-- The `skip_rephrase` stage touches only `planning.rephrase`. -/
theorem apply_skip_rephrase_frame {c out : PyDict} {sr : Bool}
    (h : apply_skip_rephrase c sr = .ok out) :
    (∀ k, k ≠ "planning" → dictGet? out k = dictGet? c k) ∧
    (∀ k, k ≠ "rephrase" →
      getPath (.dict out) ["planning", k] = getPath (.dict c) ["planning", k]) := by
  cases sr with
  | false =>
    have hco : c = out := purePyOk h
    subst hco
    exact ⟨fun _ _ => rfl, fun _ _ => rfl⟩
  | true =>
    unfold apply_skip_rephrase at h
    rw [if_pos rfl] at h
    obtain ⟨p, h0, h⟩ := exceptBind_ok h
    obtain ⟨rp, h1, h⟩ := exceptBind_ok h
    obtain ⟨rp', h2, h⟩ := exceptBind_ok h
    obtain ⟨p', h3, h⟩ := exceptBind_ok h
    obtain ⟨dp, hv, hp'⟩ := pySetItem_ok h3
    subst hv
    subst hp'
    have hout := purePyOk h
    subst hout
    have hc := topGet_ok h0
    constructor
    · intro k hk
      exact dictGet?_dictSet_ne _ _ _ _ hk
    · intro k hk
      simp [getPath, dictGet?_dictSet_self, hc, dictGet?_dictSet_ne _ _ _ _ hk]

/-- A successful `quick` plan-mode stage ends by `update`-ing the
`researching` section with the quick overrides, whatever the earlier
planning half did. -/
theorem apply_plan_mode_quick {c out : PyDict}
    (h : apply_plan_mode c "quick" = .ok out) :
    ∃ c1 dr, dictGet? c1 "researching" = some (.dict dr) ∧
      out = dictSet c1 "researching" (.dict (dictUpdate dr quick_researching)) := by
  unfold apply_plan_mode at h
  have hlk : List.lookup "quick" plan_mode_config = some quick_entry := by rfl
  simp only [hlk] at h
  obtain ⟨c1, hA, hB⟩ := exceptBind_ok h
  have e2 : dictGet? quick_entry "researching" = some (.dict quick_researching) := by rfl
  simp only [e2] at hB
  obtain ⟨r, h0, hB⟩ := exceptBind_ok hB
  obtain ⟨en, h1, hB⟩ := exceptBind_ok hB
  have hen : quick_researching = en := by simpa [pyItems] using h1
  subst hen
  obtain ⟨r', h2, hB⟩ := exceptBind_ok hB
  obtain ⟨dr, hv, hr'⟩ := pyUpdate_ok h2
  subst hv
  subst hr'
  have hout := purePyOk hB
  exact ⟨c1, dr, topGet_ok h0, hout.symm⟩

/-- A successful `auto` plan-mode stage leaves `planning.decompose.mode`
set to `"auto"` (the table entry is `update`d over whatever was there) and
ends by `update`-ing `researching` with the auto overrides. -/
theorem apply_plan_mode_auto {c out : PyDict}
    (h : apply_plan_mode c "auto" = .ok out) :
    (∃ dd, getPath (.dict out) ["planning", "decompose"] = some (.dict dd) ∧
      dictGet? dd "mode" = some (.str "auto") ∧
      dictGet? dd "auto_max_subtopics" = some (.int 8)) ∧
    getPath (.dict out) ["researching", "max_iterations"] = some (.int 6) ∧
    getPath (.dict out) ["researching", "iteration_mode"] = some (.str "flexible") := by
  unfold apply_plan_mode at h
  have hlk : List.lookup "auto" plan_mode_config = some auto_entry := by rfl
  simp only [hlk] at h
  obtain ⟨c1, hA, hB⟩ := exceptBind_ok h
  -- the planning half: single fold step over the `decompose` entry
  have e1 : dictGet? auto_entry "planning" = some (.dict auto_planning) := by rfl
  simp only [e1] at hA
  obtain ⟨items, hitems, hA⟩ := exceptBind_ok hA
  have hitems' : auto_planning = items := by simpa [pyItems] using hitems
  subst hitems'
  rw [show auto_planning = [("decompose", PyVal.dict
    [("mode", .str "auto"), ("auto_max_subtopics", .int 8)])] from rfl] at hA
  simp only [List.foldlM] at hA
  obtain ⟨c1', hf, hpure⟩ := exceptBind_ok hA
  have hc1 : c1' = c1 := purePyOk hpure
  subst hc1
  obtain ⟨p, hp, hf⟩ := exceptBind_ok hf
  obtain ⟨b, hb, hf⟩ := exceptBind_ok hf
  obtain ⟨step, hstep, hf⟩ := exceptBind_ok hf
  obtain ⟨cur, hcur, hf⟩ := exceptBind_ok hf
  obtain ⟨ven, hven, hf⟩ := exceptBind_ok hf
  have hven' : [("mode", PyVal.str "auto"), ("auto_max_subtopics", PyVal.int 8)] = ven := by
    simpa [pyItems] using hven
  subst hven'
  obtain ⟨cur', hcur', hf⟩ := exceptBind_ok hf
  obtain ⟨dcur, hvcur, hcur'eq⟩ := pyUpdate_ok hcur'
  subst hcur'eq
  obtain ⟨p'', hp'', hf⟩ := exceptBind_ok hf
  obtain ⟨dstep, hvstep, hp''eq⟩ := pySetItem_ok hp''
  subst hp''eq
  have hc1out := purePyOk hf
  -- the researching half
  have e2 : dictGet? auto_entry "researching" = some (.dict auto_researching) := by rfl
  simp only [e2] at hB
  obtain ⟨r, h0, hB⟩ := exceptBind_ok hB
  obtain ⟨en, h1, hB⟩ := exceptBind_ok hB
  have hen : auto_researching = en := by simpa [pyItems] using h1
  subst hen
  obtain ⟨r', h2, hB⟩ := exceptBind_ok hB
  obtain ⟨dr, hv, hr'⟩ := pyUpdate_ok h2
  subst hv
  subst hr'
  have hout := purePyOk hB
  subst hout
  have hc1res := topGet_ok h0
  subst hc1out
  refine ⟨⟨dictUpdate dcur [("mode", .str "auto"), ("auto_max_subtopics", .int 8)],
    ?_, ?_, ?_⟩, ?_, ?_⟩
  · simp [getPath, dictGet?_dictSet_self,
      dictGet?_dictSet_ne _ "researching" "planning" _ (by decide)]
  · simp [dictUpdate, dictGet?_dictSet_self,
      dictGet?_dictSet_ne _ "auto_max_subtopics" "mode" _ (by decide)]
  · simp [dictUpdate, dictGet?_dictSet_self]
  · simp [getPath, dictGet?_dictSet_self, auto_researching, dictUpdate,
      dictGet?_dictSet_ne _ "iteration_mode" "max_iterations" _ (by decide)]
  · simp [getPath, dictGet?_dictSet_self, auto_researching, dictUpdate]

/-! ## Dedup/normalization lemmas for the tool list -/

theorem mem_dedupFirstAux {a : String} {xs : List String} :
    ∀ {seen}, a ∈ dedupFirstAux seen xs → a ∈ xs ∧ a ∉ seen := by
  induction xs with
  | nil =>
    intro seen h
    simp [dedupFirstAux] at h
  | cons x xs ih =>
    intro seen h
    by_cases hx : seen.contains x = true
    · simp only [dedupFirstAux] at h
      rw [if_pos hx] at h
      obtain ⟨h1, h2⟩ := ih h
      exact ⟨.tail _ h1, h2⟩
    · simp only [dedupFirstAux] at h
      rw [if_neg hx] at h
      rcases List.mem_cons.mp h with rfl | h2
      · refine ⟨.head _, ?_⟩
        intro hmem
        exact hx (by simpa using hmem)
      · obtain ⟨h1, h2⟩ := ih h2
        exact ⟨.tail _ h1, fun hm => h2 (List.mem_cons_of_mem _ hm)⟩

theorem mem_dedupFirstAux_of {a : String} {xs : List String} :
    ∀ {seen}, a ∈ xs → a ∉ seen → a ∈ dedupFirstAux seen xs := by
  induction xs with
  | nil =>
    intro seen h _
    simp at h
  | cons x xs ih =>
    intro seen hmem hns
    by_cases hax : a = x
    · subst hax
      have hx : ¬ seen.contains a = true := fun hc => hns (by simpa using hc)
      simp only [dedupFirstAux]
      rw [if_neg hx]
      exact .head _
    · rcases List.mem_cons.mp hmem with h1 | h2
      · exact absurd h1 hax
      · by_cases hx : seen.contains x = true
        · simp only [dedupFirstAux]
          rw [if_pos hx]
          exact ih h2 hns
        · simp only [dedupFirstAux]
          rw [if_neg hx]
          refine .tail _ (ih h2 ?_)
          intro hm
          rcases List.mem_cons.mp hm with h3 | h3
          · exact hax h3
          · exact hns h3

theorem dedupFirstAux_nodup (seen xs : List String) :
    (dedupFirstAux seen xs).Nodup := by
  induction xs generalizing seen with
  | nil => simp [dedupFirstAux]
  | cons x xs ih =>
    by_cases hx : seen.contains x = true
    · simp only [dedupFirstAux]
      rw [if_pos hx]
      exact ih _
    · simp only [dedupFirstAux]
      rw [if_neg hx]
      refine List.nodup_cons.mpr ⟨?_, ih _⟩
      intro hmem
      exact (mem_dedupFirstAux hmem).2 (List.mem_cons_self _ _)

theorem dedupFirstAux_sublist (seen xs : List String) :
    List.Sublist (dedupFirstAux seen xs) xs := by
  induction xs generalizing seen with
  | nil => simp [dedupFirstAux]
  | cons x xs ih =>
    by_cases hx : seen.contains x = true
    · simp only [dedupFirstAux]
      rw [if_pos hx]
      exact (ih _).trans (List.sublist_cons_self _ _)
    · simp only [dedupFirstAux]
      rw [if_neg hx]
      exact List.Sublist.cons₂ _ (ih _)

/-- C8: the handler force-includes `"Web"` (prepended when absent) and
deduplicates keeping first-seen order; composing with
`enabled_tools = ["Paper"]` yields `enable_web_search = enable_paper_search
= true`, all three RAG flags `false`, `enable_run_code = true` (always),
and stores the normalized tool list `["Web", "Paper"]`. -/
theorem C8_enabled_tools_translation (cfg0 : PyDict) (pm : String)
    (preset rm : Option String) (sr : Bool) (out : PyDict)
    (hcfg : composeConfig cfg0 pm ["Paper"] preset rm sr = .ok out) :
    normalize_enabled_tools ["Paper"] = ["Web", "Paper"] ∧
    getPath (.dict out) ["researching", "enable_web_search"] = some (.bool true) ∧
    getPath (.dict out) ["researching", "enable_paper_search"] = some (.bool true) ∧
    getPath (.dict out) ["researching", "enable_rag_naive"] = some (.bool false) ∧
    getPath (.dict out) ["researching", "enable_rag_hybrid"] = some (.bool false) ∧
    getPath (.dict out) ["researching", "enable_query_item"] = some (.bool false) ∧
    getPath (.dict out) ["researching", "enable_run_code"] = some (.bool true) ∧
    getPath (.dict out) ["researching", "enabled_tools"]
      = some (.list [.str "Web", .str "Paper"]) ∧
    (∀ ts, "Web" ∈ normalize_enabled_tools ts) ∧
    (∀ ts, (normalize_enabled_tools ts).Nodup) ∧
    (∀ ts, List.Sublist (normalize_enabled_tools ts)
      (if ts.contains "Web" then ts else "Web" :: ts)) := by
  unfold composeConfig at hcfg
  rw [show normalize_enabled_tools ["Paper"] = ["Web", "Paper"] from rfl] at hcfg
  obtain ⟨c1, h1, hcfg⟩ := exceptBind_ok hcfg
  obtain ⟨c2, h2, hcfg⟩ := exceptBind_ok hcfg
  obtain ⟨c3, h3, hcfg⟩ := exceptBind_ok hcfg
  obtain ⟨c4, h4, hcfg⟩ := exceptBind_ok hcfg
  obtain ⟨c5, h5, hcfg⟩ := exceptBind_ok hcfg
  obtain ⟨c6, h6, hcfg⟩ := exceptBind_ok hcfg
  obtain ⟨c7, h7, hcfg⟩ := exceptBind_ok hcfg
  obtain ⟨c8, h8, hcfg⟩ := exceptBind_ok hcfg
  obtain ⟨d0, hd0, hc7⟩ := apply_enabled_tools_ok h7
  have hrm := apply_research_mode_frame h8
  have hsr := apply_skip_rephrase_frame hcfg
  have chain : ∀ k : String, k ≠ "research_mode" →
      getPath (PyVal.dict out) ["researching", k]
        = getPath (PyVal.dict c7) ["researching", k] := by
    intro k hk
    exact (getPath_cons_congr (hsr.1 "researching" (by decide)) _).trans (hrm.1 k hk)
  refine ⟨rfl, ?_, ?_, ?_, ?_, ?_, ?_, ?_, ?_, ?_, ?_⟩
  · rw [chain "enable_web_search" (by decide), hc7]
    simp [getPath, dictGet?_dictSet_self, dictGet?_dictSet_ne, List.contains]
  · rw [chain "enable_paper_search" (by decide), hc7]
    simp [getPath, dictGet?_dictSet_self, dictGet?_dictSet_ne, List.contains]
  · rw [chain "enable_rag_naive" (by decide), hc7]
    simp [getPath, dictGet?_dictSet_self, dictGet?_dictSet_ne, List.contains]
  · rw [chain "enable_rag_hybrid" (by decide), hc7]
    simp [getPath, dictGet?_dictSet_self, dictGet?_dictSet_ne, List.contains]
  · rw [chain "enable_query_item" (by decide), hc7]
    simp [getPath, dictGet?_dictSet_self, dictGet?_dictSet_ne, List.contains]
  · rw [chain "enable_run_code" (by decide), hc7]
    simp [getPath, dictGet?_dictSet_self, dictGet?_dictSet_ne]
  · rw [chain "enabled_tools" (by decide), hc7]
    simp [getPath, dictGet?_dictSet_self, dictGet?_dictSet_ne]
  · intro ts
    unfold normalize_enabled_tools
    refine mem_dedupFirstAux_of ?_ (by simp)
    by_cases h : ts.contains "Web" = true
    · rw [if_pos h]
      simpa using h
    · rw [if_neg h]
      exact .head _
  · intro ts
    exact dedupFirstAux_nodup _ _
  · intro ts
    exact dedupFirstAux_sublist _ _

theorem C8_enabled_tools_translation_witness :
    getPath (.dict ((composeConfig [] "medium" ["Paper"] none none false).toOption.getD []))
        ["researching", "enable_web_search"] = some (.bool true) :=
  (C8_enabled_tools_translation [] "medium" none none false
    ((composeConfig [] "medium" ["Paper"] none none false).toOption.getD []) rfl).2.1

/-- C7 counterexample: the claim quantifies over every handshake with
`plan_mode = "quick"`, but a handshake that also carries a legacy
`preset` whose table entry overrides the `researching` section runs the
preset stage (lines 784-788) after the plan-mode stage (lines 771-781):
with `presets.legacy.researching.max_iterations = 5` the composed config
ends with `max_iterations = 5`, not `2`. -/
theorem C7_counterexample_legacy_preset_overrides_quick :
    getPath (.dict ((composeConfig preset_base_config "quick" ["RAG"] (some "legacy")
        none false).toOption.getD []))
      ["researching", "max_iterations"] = some (.int 5) ∧
    (composeConfig preset_base_config "quick" ["RAG"] (some "legacy")
        none false).toOption.isSome = true ∧
    some (PyVal.int 5) ≠ some (PyVal.int 2) := by
  refine ⟨rfl, rfl, ?_⟩
  simp

/-- C7 (amended): for handshakes that carry no legacy `preset`, composing
with `plan_mode = "quick"` yields `researching.max_iterations = 2` and
`researching.iteration_mode = "fixed"`; with `"auto"` it yields
`planning.decompose.mode = "auto"` and `researching.iteration_mode =
"flexible"`; and a `plan_mode` outside the four known names leaves the
plan-mode stage as an explicit no-op that raises nothing. -/
theorem C7_plan_mode_presets (cfgQ cfgA : PyDict) (etQ etA : List String)
    (rmQ rmA : Option String) (srQ srA : Bool) (outQ outA : PyDict)
    (hq : composeConfig cfgQ "quick" etQ none rmQ srQ = .ok outQ)
    (ha : composeConfig cfgA "auto" etA none rmA srA = .ok outA) :
    getPath (.dict outQ) ["researching", "max_iterations"] = some (.int 2) ∧
    getPath (.dict outQ) ["researching", "iteration_mode"] = some (.str "fixed") ∧
    getPath (.dict outA) ["planning", "decompose", "mode"] = some (.str "auto") ∧
    getPath (.dict outA) ["researching", "iteration_mode"] = some (.str "flexible") ∧
    (∀ c pm, pm ∉ (["quick", "medium", "deep", "auto"] : List String) →
      apply_plan_mode c pm = .ok c) := by
  unfold composeConfig at hq ha
  obtain ⟨q1, _, hqa⟩ := exceptBind_ok hq
  obtain ⟨q2, _, hqb⟩ := exceptBind_ok hqa
  obtain ⟨q3, _, hqc⟩ := exceptBind_ok hqb
  obtain ⟨q4, _, hqd⟩ := exceptBind_ok hqc
  obtain ⟨q5, hq5, hqe⟩ := exceptBind_ok hqd
  obtain ⟨q6, hq6, hqf⟩ := exceptBind_ok hqe
  obtain ⟨q7, hq7, hqg⟩ := exceptBind_ok hqf
  obtain ⟨q8, hq8, hqfin⟩ := exceptBind_ok hqg
  rw [apply_legacy_preset_none] at hq6
  have hq65 : q5 = q6 := by simpa using hq6
  subst hq65
  obtain ⟨qc1, qdr, hqdr, hout5⟩ := apply_plan_mode_quick hq5
  subst hout5
  obtain ⟨qd0, hqd0, hqc7⟩ := apply_enabled_tools_ok hq7
  have hqrm := apply_research_mode_frame hq8
  have hqsr := apply_skip_rephrase_frame hqfin
  have qt7 : ∀ k : String, k ≠ "enable_rag_naive" → k ≠ "enable_rag_hybrid" →
      k ≠ "enable_query_item" → k ≠ "enable_paper_search" → k ≠ "enable_web_search" →
      k ≠ "enable_run_code" → k ≠ "enabled_tools" →
      getPath (PyVal.dict q7) ["researching", k]
        = getPath (PyVal.dict (dictSet qc1 "researching"
            (.dict (dictUpdate qdr quick_researching)))) ["researching", k] := by
    intro k k1 k2 k3 k4 k5 k6 k7
    subst hqc7
    simp [getPath, dictGet?_dictSet_self, hqd0,
      dictGet?_dictSet_ne _ _ _ _ k1, dictGet?_dictSet_ne _ _ _ _ k2,
      dictGet?_dictSet_ne _ _ _ _ k3, dictGet?_dictSet_ne _ _ _ _ k4,
      dictGet?_dictSet_ne _ _ _ _ k5, dictGet?_dictSet_ne _ _ _ _ k6,
      dictGet?_dictSet_ne _ _ _ _ k7]
  have qchain : ∀ k : String, k ≠ "research_mode" → k ≠ "enable_rag_naive" →
      k ≠ "enable_rag_hybrid" → k ≠ "enable_query_item" → k ≠ "enable_paper_search" →
      k ≠ "enable_web_search" → k ≠ "enable_run_code" → k ≠ "enabled_tools" →
      getPath (PyVal.dict outQ) ["researching", k]
        = getPath (PyVal.dict (dictSet qc1 "researching"
            (.dict (dictUpdate qdr quick_researching)))) ["researching", k] := by
    intro k k0 k1 k2 k3 k4 k5 k6 k7
    exact ((getPath_cons_congr (hqsr.1 "researching" (by decide)) _).trans
      (hqrm.1 k k0)).trans (qt7 k k1 k2 k3 k4 k5 k6 k7)
  refine ⟨?_, ?_, ?_, ?_, ?_⟩
  · rw [qchain "max_iterations" (by decide) (by decide) (by decide) (by decide)
      (by decide) (by decide) (by decide) (by decide)]
    simp [getPath, dictGet?_dictSet_self, dictGet?_dictSet_ne, quick_researching,
      dictUpdate]
  · rw [qchain "iteration_mode" (by decide) (by decide) (by decide) (by decide)
      (by decide) (by decide) (by decide) (by decide)]
    simp [getPath, dictGet?_dictSet_self, dictGet?_dictSet_ne, quick_researching,
      dictUpdate]
  · -- the auto run: peel its stages
    obtain ⟨a1, _, haa⟩ := exceptBind_ok ha
    obtain ⟨a2, _, hab⟩ := exceptBind_ok haa
    obtain ⟨a3, _, hac⟩ := exceptBind_ok hab
    obtain ⟨a4, _, had⟩ := exceptBind_ok hac
    obtain ⟨a5, ha5, hae⟩ := exceptBind_ok had
    obtain ⟨a6, ha6, haf⟩ := exceptBind_ok hae
    obtain ⟨a7, ha7, hag⟩ := exceptBind_ok haf
    obtain ⟨a8, ha8, hafin⟩ := exceptBind_ok hag
    rw [apply_legacy_preset_none] at ha6
    have ha65 : a5 = a6 := by simpa using ha6
    subst ha65
    obtain ⟨⟨dd, hdd, hmode, _⟩, _, _⟩ := apply_plan_mode_auto ha5
    obtain ⟨ad0, had0, hac7⟩ := apply_enabled_tools_ok ha7
    have harm := apply_research_mode_frame ha8
    have hasr := apply_skip_rephrase_frame hafin
    have hplan : getPath (PyVal.dict outA) ["planning", "decompose"]
        = some (.dict dd) := by
      have t1 : getPath (PyVal.dict outA) ["planning", "decompose"]
          = getPath (PyVal.dict a8) ["planning", "decompose"] :=
        hasr.2 "decompose" (by decide)
      have t2 : getPath (PyVal.dict a8) ["planning", "decompose"]
          = getPath (PyVal.dict a7) ["planning", "decompose"] :=
        getPath_cons_congr (harm.2 "planning" (by decide)) _
      have t3 : getPath (PyVal.dict a7) ["planning", "decompose"]
          = getPath (PyVal.dict a5) ["planning", "decompose"] := by
        subst hac7
        exact getPath_cons_congr (dictGet?_dictSet_ne _ _ _ _ (by decide)) _
      rw [t1, t2, t3, hdd]
    rw [show (["planning", "decompose", "mode"] : List String)
        = ["planning", "decompose"] ++ ["mode"] from rfl, getPath_append, hplan]
    simp [getPath, hmode]
  · obtain ⟨a1, _, haa⟩ := exceptBind_ok ha
    obtain ⟨a2, _, hab⟩ := exceptBind_ok haa
    obtain ⟨a3, _, hac⟩ := exceptBind_ok hab
    obtain ⟨a4, _, had⟩ := exceptBind_ok hac
    obtain ⟨a5, ha5, hae⟩ := exceptBind_ok had
    obtain ⟨a6, ha6, haf⟩ := exceptBind_ok hae
    obtain ⟨a7, ha7, hag⟩ := exceptBind_ok haf
    obtain ⟨a8, ha8, hafin⟩ := exceptBind_ok hag
    rw [apply_legacy_preset_none] at ha6
    have ha65 : a5 = a6 := by simpa using ha6
    subst ha65
    obtain ⟨_, _, hflex⟩ := apply_plan_mode_auto ha5
    obtain ⟨ad0, had0, hac7⟩ := apply_enabled_tools_ok ha7
    have harm := apply_research_mode_frame ha8
    have hasr := apply_skip_rephrase_frame hafin
    have at7 : getPath (PyVal.dict a7) ["researching", "iteration_mode"]
        = getPath (PyVal.dict a5) ["researching", "iteration_mode"] := by
      subst hac7
      simp [getPath, dictGet?_dictSet_self, had0, dictGet?_dictSet_ne]
    rw [(getPath_cons_congr (hasr.1 "researching" (by decide)) _).trans
      ((harm.1 "iteration_mode" (by decide)).trans at7), hflex]
  · intro c pm hpm
    have h1 : pm ≠ "quick" := fun he => hpm (by simp [he])
    have h2 : pm ≠ "medium" := fun he => hpm (by simp [he])
    have h3 : pm ≠ "deep" := fun he => hpm (by simp [he])
    have h4 : pm ≠ "auto" := fun he => hpm (by simp [he])
    have e1 : (pm == "quick") = false := beq_eq_false_iff_ne.mpr h1
    have e2 : (pm == "medium") = false := beq_eq_false_iff_ne.mpr h2
    have e3 : (pm == "deep") = false := beq_eq_false_iff_ne.mpr h3
    have e4 : (pm == "auto") = false := beq_eq_false_iff_ne.mpr h4
    have hlk : List.lookup pm plan_mode_config = none := by
      simp [plan_mode_config, List.lookup, e1, e2, e3, e4]
    unfold apply_plan_mode
    rw [hlk]
    rfl

theorem C7_plan_mode_presets_witness :
    getPath (.dict ((composeConfig [] "quick" ["RAG"] none none false).toOption.getD []))
      ["researching", "max_iterations"] = some (.int 2) :=
  (C7_plan_mode_presets [] [] ["RAG"] ["RAG"] none none false false
    ((composeConfig [] "quick" ["RAG"] none none false).toOption.getD [])
    ((composeConfig [] "auto" ["RAG"] none none false).toOption.getD [])
    rfl rfl).1

end DeepTutor
